import Mathlib

/-!
Verification of the NetCAT backup system (netcat.py, netcat_backup.py,
netcat_dynamodb.py, netcat_cli.py) against its natural-language specification.

The Python sources are shallowly embedded: Python dicts become association
lists, Python strings become Lean `String`s, fallible operations return
`Option`, and effectful loops (database retry, ssh authentication) become
explicit traces over oracle inputs.
-/

namespace Netcat

/-- Python `s.split("\x7bsep\x7d")` for the one-character separator `\n`,
on the character-list level: splitting an empty list yields `[[]]`, and a
list with n separators yields n+1 pieces. -/
def split_on_nl : List Char → List (List Char)
  | [] => [[]]
  | c :: rest =>
    if c = '\n' then [] :: split_on_nl rest
    else
      match split_on_nl rest with
      | [] => [[c]]
      | piece :: pieces => (c :: piece) :: pieces

/-- Lines of a Python string, as in `output.split("\n")`. -/
def split_lines (s : String) : List String :=
  (split_on_nl s.data).map String.mk

/-- Does `needle` match at the head of `haystack`? (substring search helper) -/
def lead_match : List Char → List Char → Bool
  | [], _ => true
  | _ :: _, [] => false
  | c :: cs, d :: ds => c == d && lead_match cs ds

/-- Does `haystack` contain `needle` as a contiguous run? -/
def contains_sub (needle : List Char) : List Char → Bool
  | [] => lead_match needle []
  | c :: rest => lead_match needle (c :: rest) || contains_sub needle rest

/-- Python `s.find(sub) >= 0`: `sub` occurs as a substring of `s`. -/
def str_find (s sub : String) : Bool :=
  contains_sub sub.data s.data

/-- Python `s.startswith(pre)`. -/
def starts_with (s pre : String) : Bool :=
  pre.data.isPrefixOf s.data

/-- Python `s[7:]` (drop the first seven characters). -/
def drop7 (s : String) : String :=
  String.mk (s.data.drop 7)

/-- One hex digit as produced by `binascii.hexlify`: `0`-`9` then `a`-`f`. -/
def hex_digit_char (n : Nat) : Char :=
  if n < 10 then Char.ofNat (48 + n) else Char.ofNat (87 + n)

/-- `binascii.hexlify`: each byte becomes two lowercase hex digits. -/
def hexlify (bs : List Nat) : List Char :=
  bs.flatMap (fun b => [hex_digit_char (b / 16), hex_digit_char (b % 16)])

/-- Value of one hex digit (`0`-`9`, `a`-`f`), `none` on any other character,
as `binascii.unhexlify` rejects non-hex input. -/
def hex_val (c : Char) : Option Nat :=
  if 48 ≤ c.toNat ∧ c.toNat ≤ 57 then some (c.toNat - 48)
  else if 97 ≤ c.toNat ∧ c.toNat ≤ 102 then some (c.toNat - 87)
  else none

/-- `binascii.unhexlify`: pairs of hex digits back to bytes; fails on odd
length or non-hex characters. -/
def unhexlify : List Char → Option (List Nat)
  | [] => some []
  | [_] => none
  | c1 :: c2 :: rest =>
    match hex_val c1, hex_val c2 with
    | some hi, some lo => (unhexlify rest).map (fun bs => (16 * hi + lo) :: bs)
    | _, _ => none

/-- `str.maketrans("1234567890", "ghijklmnop")` applied by `str.translate`:
each decimal digit is replaced by a letter, all other characters are kept. -/
def translate_digit (c : Char) : Char :=
  if c = '1' then 'g' else if c = '2' then 'h' else if c = '3' then 'i'
  else if c = '4' then 'j' else if c = '5' then 'k' else if c = '6' then 'l'
  else if c = '7' then 'm' else if c = '8' then 'n' else if c = '9' then 'o'
  else if c = '0' then 'p' else c

/-- `str.maketrans("ghijklmnop", "1234567890")`: the inverse substitution. -/
def untranslate_digit (c : Char) : Char :=
  if c = 'g' then '1' else if c = 'h' then '2' else if c = 'i' then '3'
  else if c = 'j' then '4' else if c = 'k' then '5' else if c = 'l' then '6'
  else if c = 'm' then '7' else if c = 'n' then '8' else if c = 'o' then '9'
  else if c = 'p' then '0' else c

/-- UTF-8 encoding of one scalar value (`str.encode("utf-8")`, per
character): 1 to 4 bytes depending on the code point's range. -/
def utf8_encode_char (c : Char) : List Nat :=
  if c.toNat < 128 then [c.toNat]
  else if c.toNat < 2048 then [192 + c.toNat / 64, 128 + c.toNat % 64]
  else if c.toNat < 65536 then
    [224 + c.toNat / 4096, 128 + c.toNat / 64 % 64, 128 + c.toNat % 64]
  else
    [240 + c.toNat / 262144, 128 + c.toNat / 4096 % 64, 128 + c.toNat / 64 % 64,
      128 + c.toNat % 64]

/-- UTF-8 encoding of a character list (`str.encode("utf-8")`). -/
def utf8_encode (l : List Char) : List Nat :=
  l.flatMap utf8_encode_char

/-- UTF-8 decoding as a byte-by-byte state machine: `none` means a lead
byte is expected, `some (acc, k)` means `k` more continuation bytes are
expected with `acc` the value accumulated so far.  Fails on a stray or
missing continuation byte.  (Overlong-form and surrogate validation of the
CPython codec is omitted; on encoder output the two agree.) -/
def utf8_decode_st : Option (Nat × Nat) → List Nat → Option (List Char)
  | none, [] => some []
  | some _, [] => none
  | none, b :: bs =>
    if b < 128 then (utf8_decode_st none bs).map (fun cs => Char.ofNat b :: cs)
    else if b < 192 then none
    else if b < 224 then utf8_decode_st (some (b - 192, 1)) bs
    else if b < 240 then utf8_decode_st (some (b - 224, 2)) bs
    else utf8_decode_st (some (b - 240, 3)) bs
  | some (acc, k), b :: bs =>
    if 128 ≤ b ∧ b < 192 then
      if k = 1 then
        (utf8_decode_st none bs).map (fun cs => Char.ofNat (acc * 64 + (b - 128)) :: cs)
      else utf8_decode_st (some (acc * 64 + (b - 128), k - 1)) bs
    else none

/-- UTF-8 decoding of a byte list (`str(b, "utf-8")`); fails on malformed
sequences. -/
def utf8_decode (bs : List Nat) : Option (List Char) :=
  utf8_decode_st none bs

/-- `netcat.encode_command`: hexlify the UTF-8 bytes of the command name,
then substitute decimal digits by `g`..`p`. -/
def encode_command (command_name : String) : String :=
  String.mk ((hexlify (utf8_encode command_name.data)).map translate_digit)

/-- `netcat.decode_command`: undo the digit substitution, unhexlify, and
decode UTF-8; fails (raises, in Python) on input not produced by
`encode_command`. -/
def decode_command (command_name : String) : Option String :=
  (unhexlify (command_name.data.map untranslate_digit)).bind
    (fun bs => (utf8_decode bs).map String.mk)

/-- A well-formed `device_data` dict: the four fixed keys, with
`output_formats` an insertion-ordered mapping from format name to an
insertion-ordered mapping from command string to output string. -/
structure DeviceData where
  snapshot_timestamp : Int
  device_name : String
  device_type : String
  output_formats : List (String × List (String × String))
deriving DecidableEq

/-- `netcat.compress_device_data`, with the byte-level pipeline
`b85encode(bz2.compress(bytes(data, "utf-8")))` abstracted as a string
codec parameter `comp` (it is Python standard-library code, not code of
this repository); command names are escaped with `encode_command`. -/
def compress_device_data (comp : String → String) (device_data : DeviceData) : DeviceData :=
  { snapshot_timestamp := device_data.snapshot_timestamp
    device_name := device_data.device_name
    device_type := device_data.device_type
    output_formats :=
      device_data.output_formats.map
        (fun fd => (fd.1, fd.2.map (fun cd => (encode_command cd.1, comp cd.2)))) }

/-- `netcat.decompress_device_data`, with the byte-level pipeline
`str(bz2.decompress(b85decode(data)), "utf-8")` abstracted as the fallible
codec parameter `decomp`; command names are restored with `decode_command`. -/
def decompress_device_data (decomp : String → Option String) (compressed : DeviceData) :
    Option DeviceData := do
  let formats ← compressed.output_formats.mapM (fun fd => do
    let cmds ← fd.2.mapM (fun cd => do
      let name ← decode_command cd.1
      let data ← decomp cd.2
      pure (name, data))
    pure (fd.1, cmds))
  pure
    { snapshot_timestamp := compressed.snapshot_timestamp
      device_name := compressed.device_name
      device_type := compressed.device_type
      output_formats := formats }

/-- Database table names from netcat.py. -/
def DBT_INFO : String := "netcat_info"

/-- Database table name of the backup table. -/
def DBT_BACKUP : String := "netcat_backup"

/-- Database table name of the status table. -/
def DBT_STATUS : String := "netcat_status"

/-- One inventory record of `device_info_list.json` (the fields the claims
need). -/
structure DeviceInfo where
  device_name : String
  device_type : String
deriving DecidableEq

end Netcat

namespace NetcatBackup

open Netcat

/-- The known-volatile fragments of `compare_command_outputs` (the Python
set literal, as a list; only the disjunction over its members matters). -/
def exclusions : List String :=
  ["!Time:", "no ip domain-lookup", "state up", "state down"]

/-- `netcat_backup.compare_command_outputs`: `true` when the two outputs are
the same, `false` when they differ.  Line counts must agree, and every pair
of corresponding unequal lines must have an exclusion fragment on at least
one side (the for/else over `exclusions` with `find(...) >= 0`). -/
def compare_command_outputs (output_a output_b : String) : Bool :=
  let output_a_lines := split_lines output_a
  let output_b_lines := split_lines output_b
  if output_a_lines.length ≠ output_b_lines.length then false
  else
    (output_a_lines.zip output_b_lines).all (fun p =>
      p.1 == p.2 || exclusions.any (fun excl => str_find p.1 excl || str_find p.2 excl))

/-- `netcat_backup.detect_config_change`.  `previous` is the result of
`db.load_latest_backup(device_name)`: `none` when the table holds no
document for the device (the `or \x7b\x7d` default).  The code first takes
`previous.get("output_formats", \x7b\x7d)` and returns `true` when that
mapping is empty; otherwise it walks the current `backup*` formats,
comparing each command output with the previous one (default `""`),
accumulating the `config_change_detected` flag. -/
def detect_config_change (device_info : DeviceData) (previous : Option DeviceData) : Bool :=
  let previous_formats := (previous.map (fun p => p.output_formats)).getD []
  if previous_formats.isEmpty then true
  else
    let current_formats := device_info.output_formats.filter (fun fd => starts_with fd.1 "backup")
    current_formats.foldl
      (fun acc fd =>
        fd.2.foldl
          (fun acc2 cd =>
            if !(compare_command_outputs cd.2
                  ((((previous_formats.lookup fd.1).getD []).lookup cd.1).getD "")) then true
            else acc2)
          acc)
      false

/-- The document built by the inner helper `_` of
`netcat_backup.save_device_data`: the snapshot's identity fields, the
driver timestamp, and only the output formats whose name starts with
`table_name[7:]` (`"backup"` for the backup table, `"info"` for the info
table). -/
def save_device_document (device_data : DeviceData) (timestamp : Int) (table_name : String) :
    DeviceData :=
  { snapshot_timestamp := timestamp
    device_name := device_data.device_name
    device_type := device_data.device_type
    output_formats :=
      device_data.output_formats.filter (fun fd => starts_with fd.1 (drop7 table_name)) }

/-- `netcat_backup.save_device_data`, as the list of `(table, document)`
writes it issues, in order: the backup table when `config_change or
force_backup`, then the info table unconditionally. -/
def save_device_data (device_data : DeviceData) (timestamp : Int)
    (config_change force_backup : Bool) : List (String × DeviceData) :=
  (if config_change || force_backup then
    [(DBT_BACKUP, save_device_document device_data timestamp DBT_BACKUP)]
  else []) ++
  [(DBT_INFO, save_device_document device_data timestamp DBT_INFO)]

/-- The database writes of `netcat_backup.cli_process` for a snapshot that
was retrieved successfully: nothing in a test run, otherwise
`save_device_data` with the change decision of `detect_config_change`. -/
def cli_process_writes (device_data : DeviceData) (timestamp : Int)
    (previous : Option DeviceData) (force_backup test_run : Bool) :
    List (String × DeviceData) :=
  if test_run then []
  else save_device_data device_data timestamp (detect_config_change device_data previous) force_backup

/-- The sorted successful-device-name list of `netcat_backup.main`: the
worker pool runs `cli_process` for every inventory record whose name is in
the requested list; each worker returns `[device_name]` on success and
contributes nothing on failure (modelled by the oracle `ok`). -/
def successful_device_name_list (device_info_list : List DeviceInfo)
    (requested_device_name_list : List String) (ok : String → Bool) : List String :=
  ((device_info_list.filter (fun di => requested_device_name_list.contains di.device_name)).flatMap
      (fun di => if ok di.device_name then [di.device_name] else [])).mergeSort
    (fun a b => a ≤ b)

/-- The sorted failed-device-name list of `netcat_backup.main`:
`sorted(set(requested) - set(successful))`. -/
def failed_device_name_list (requested_device_name_list successful : List String) : List String :=
  ((requested_device_name_list.filter (fun d => !(successful.contains d))).dedup).mergeSort
    (fun a b => a ≤ b)

/-- Result of `netcat.read_info_list_file`: the parsed JSON list, or an
IOError / JSONDecodeError which the function turns into `[]`. -/
inductive ReadListResult where
  | parsed (l : List DeviceInfo)
  | ioError
  | jsonError
deriving DecidableEq

/-- `netcat.read_info_list_file`: returns the parsed list, and `[]` after
logging an error when the file cannot be read or parsed. -/
def read_info_list_file : ReadListResult → List DeviceInfo
  | .parsed l => l
  | .ioError => []
  | .jsonError => []

/-- The exceptions `netcat.exception_handler` distinguishes around
`netcat_backup.main`. -/
inductive MainFault where
  | customException
  | keyboardInterrupt
  | otherException
deriving DecidableEq

/-- Process exit status of Python `sys.exit(code)`: `sys.exit()` with no
argument (that is, `sys.exit(None)`) exits with status 0. -/
def sys_exit_code (code : Option Nat) : Nat :=
  code.getD 0

/-- Exit code of the backup program (`sys.exit(main())` with `main` wrapped
in `netcat.exception_handler`): `CustomException` and `KeyboardInterrupt`
exit 1, any other uncaught exception also ends the process with status 1;
otherwise `main` runs: an empty inventory or an empty requested selection
hits a bare `sys.exit()` (status 0), and completion returns 0 no matter
which devices failed (`failed_devices` does not enter the computation). -/
def main_exit_code (read : ReadListResult) (requested_device_name_list : List String)
    (failed_devices : List String) (fault : Option MainFault) : Nat :=
  match fault with
  | some .customException => 1
  | some .keyboardInterrupt => 1
  | some .otherException => 1
  | none =>
    if read_info_list_file read = [] then sys_exit_code none
    else if requested_device_name_list = [] then sys_exit_code none
    else
      let _ := failed_devices
      0

end NetcatBackup

namespace NetcatDynamoDB

open Netcat

/-- Outcome of one `DB_CLIENT.put_item` call inside
`netcat_dynamodb.write`: success, a throttling / provisioned-throughput
`ClientError`, or any other `ClientError`. -/
inductive PutAttempt where
  | ok
  | throttle
  | otherErr
deriving DecidableEq

/-- How `netcat_dynamodb.write` terminates: the `break` on success, the
immediate `CustomException` on a non-throttling error, or the while/else
`CustomException` after the attempts run out. -/
inductive WriteResult where
  | success
  | clientError
  | exhausted
deriving DecidableEq

/-- Observable trace of `netcat_dynamodb.write`: how many `put_item` calls
were made, the sleep durations in order, and how the call ended. -/
structure WriteTrace where
  attempts : Nat
  sleeps : List ℚ
  result : WriteResult
deriving DecidableEq

/-- The retry loop of `netcat_dynamodb.write` over the attempt-outcome
oracle `outs` and the `random.uniform(0.1, max_sleep_time)` draw oracle
`draws` (indexed by attempt number): fuel is the `attempts` counter,
`i` the current attempt index.  On a throttling error the code sleeps
`draws i` and decrements the counter; when the counter hits zero the
while/else raises. -/
def write_loop (outs : Nat → PutAttempt) (draws : Nat → ℚ) : Nat → Nat → WriteTrace
  | 0, _ => ⟨0, [], .exhausted⟩
  | fuel + 1, i =>
    match outs i with
    | .ok => ⟨1, [], .success⟩
    | .otherErr => ⟨1, [], .clientError⟩
    | .throttle =>
      let t := write_loop outs draws fuel (i + 1)
      ⟨t.attempts + 1, draws i :: t.sleeps, t.result⟩

/-- `netcat_dynamodb.write` with the default `max_attempts=15`
(compression of info/backup documents happens before the loop and does not
affect the retry behaviour). -/
def write (outs : Nat → PutAttempt) (draws : Nat → ℚ) : WriteTrace :=
  write_loop outs draws 15 0

end NetcatDynamoDB

namespace NetcatCli

/-- What `self.cli.expect([self.cli_prompt, self.password_prompt])` matched
after a password was sent in `NetCatCliAccess.open_cli`. -/
inductive PwExpect where
  | cliPrompt
  | pwPrompt
deriving DecidableEq

/-- How the password branch of `open_cli` ends: the session reaches the
CLI prompt (the method returns), or `CustomException("Cannot login with
supplied credentials")` is raised. -/
inductive AuthResult where
  | opened
  | authFailed
deriving DecidableEq

/-- Observable trace of the password loop: passwords sent, the sleeps (in
seconds) performed, and the outcome. -/
structure AuthTrace where
  passwords_sent : Nat
  sleeps : List Nat
  result : AuthResult
deriving DecidableEq

/-- The `for second_password_attempt in [False, True]` loop of
`NetCatCliAccess.open_cli` (password authentication), over the oracle
`expects` giving each expect match.  A CLI prompt returns; a password
re-prompt on the first pass sleeps 5 seconds and continues; a re-prompt on
the second pass raises.  Falling off the loop (unreachable, since the
second pass always returns or raises) would let `open_cli` return
normally. -/
def password_auth_loop (expects : Nat → PwExpect) : List Bool → Nat → AuthTrace
  | [], _ => ⟨0, [], .opened⟩
  | second_password_attempt :: rest, i =>
    match expects i with
    | .cliPrompt => ⟨1, [], .opened⟩
    | .pwPrompt =>
      if second_password_attempt then ⟨1, [], .authFailed⟩
      else
        let t := password_auth_loop expects rest (i + 1)
        ⟨t.passwords_sent + 1, 5 :: t.sleeps, t.result⟩

/-- The password-authentication part of `open_cli`, after the connection
prompt was handled. -/
def open_cli_password (expects : Nat → PwExpect) : AuthTrace :=
  password_auth_loop expects [false, true] 0

end NetcatCli

namespace SpecSide

open Netcat NetcatBackup

/-- A line contains one of the volatile fragments (wording of the change
detector specification). -/
def line_is_volatile (line : String) : Bool :=
  exclusions.any (fun excl => str_find line excl)

/-- Output equivalence, in the specification's words: same number of lines,
and every pair of corresponding unequal lines has at least one side
containing a volatile fragment. -/
def outputs_equivalent (a b : String) : Bool :=
  (split_lines a).length == (split_lines b).length &&
    ((split_lines a).zip (split_lines b)).all (fun p =>
      p.1 == p.2 || (line_is_volatile p.1 || line_is_volatile p.2))

/-- The change decision exactly as claim C2 words it: a change iff no
previous backup exists, or some current `backup*` format has a command
whose output is not equivalent to the previous output (default `""`). -/
def claimed_config_change (current : DeviceData) (previous : Option DeviceData) : Bool :=
  match previous with
  | none => true
  | some p =>
    current.output_formats.any (fun fd =>
      starts_with fd.1 "backup" && fd.2.any (fun cd =>
        !(outputs_equivalent cd.2
          ((((p.output_formats.lookup fd.1).getD []).lookup cd.1).getD ""))))

/-- Claim C2 amended: the first disjunct is "the previous backup is missing
or its `output_formats` mapping is empty", matching the code's falsiness
test on `previous.get("output_formats", \x7b\x7d)`. -/
def claimed_config_change_amended (current : DeviceData) (previous : Option DeviceData) : Bool :=
  match previous with
  | none => true
  | some p =>
    p.output_formats.isEmpty ||
      current.output_formats.any (fun fd =>
        starts_with fd.1 "backup" && fd.2.any (fun cd =>
          !(outputs_equivalent cd.2
            ((((p.output_formats.lookup fd.1).getD []).lookup cd.1).getD ""))))

end SpecSide

namespace Samples

open Netcat

/-- A small well-formed snapshot used to instantiate round-trip theorems. -/
def sample_snapshot : DeviceData :=
  { snapshot_timestamp := 1580000000
    device_name := "rtr01"
    device_type := "cisco_router"
    output_formats :=
      [("backup_running", [("show running-config", "hostname rtr01\nend\n")]),
       ("info", [("show version", "IOS 15.2\n")])] }

/-- Current snapshot of the C2 counterexample: one `backup*` format whose
single command output is the empty string. -/
def c2_current : DeviceData :=
  { snapshot_timestamp := 0
    device_name := "rtr01"
    device_type := "cisco_router"
    output_formats := [("backup_running", [("show running-config", "")])] }

/-- Previous snapshot of the C2 counterexample: a stored backup document
whose `output_formats` mapping is empty (exactly what a backup of a device
with no `backup*` formats stores). -/
def c2_previous : DeviceData :=
  { snapshot_timestamp := 0
    device_name := "rtr01"
    device_type := "cisco_router"
    output_formats := [] }

/-- Snapshot of the C9 counterexample: one format named `status`, which
starts with neither `backup` nor `info`. -/
def c9_snapshot : DeviceData :=
  { snapshot_timestamp := 7
    device_name := "rtr01"
    device_type := "cisco_router"
    output_formats := [("status", [("show failover", "Failover On\n")])] }

/-- Attempt-outcome oracle of the C6 witness scenario: the first three
`put_item` calls raise a throttling error, the fourth succeeds. -/
def c6_outs : Nat → NetcatDynamoDB.PutAttempt :=
  fun i => if i < 3 then .throttle else .ok

/-- Sleep-draw oracle of the C6 witness scenario: every draw is 1 second. -/
def c6_draws : Nat → ℚ :=
  fun _ => 1

/-- Expect oracle of the C7 witness: a password re-prompt after the first
password, then the CLI prompt. -/
def c7_expects : Nat → NetcatCli.PwExpect :=
  fun i => if i = 0 then .pwPrompt else .cliPrompt

/-- Two-device inventory for the C5 witness. -/
def c5_inventory : List DeviceInfo :=
  [{ device_name := "asa01", device_type := "cisco_asa" },
   { device_name := "rtr01", device_type := "cisco_router" }]

/-- Worker-success oracle for the C5 witness: only `rtr01` succeeds. -/
def c5_ok : String → Bool :=
  fun name => name == "rtr01"

end Samples

namespace Proofs

open Netcat NetcatBackup NetcatDynamoDB NetcatCli

lemma any_congr_mem {α : Type} (l : List α) (f g : α → Bool) (h : ∀ x ∈ l, f x = g x) :
    l.any f = l.any g := by
  induction l with
  | nil => rfl
  | cons a t ih =>
    simp only [List.any_cons, h a (by simp), ih (fun x hx => h x (by simp [hx]))]

lemma any_or_split {α : Type} (l : List α) (f g : α → Bool) :
    (l.any fun x => f x || g x) = (l.any f || l.any g) := by
  induction l with
  | nil => rfl
  | cons a t ih =>
    simp only [List.any_cons, ih]
    cases f a <;> cases g a <;> simp

lemma foldl_if_or {α : Type} (g : α → Bool) :
    ∀ (l : List α) (b : Bool), (l.foldl (fun acc x => if g x then true else acc) b) = (b || l.any g) := by
  intro l
  induction l with
  | nil => intro b; simp
  | cons a t ih =>
    intro b
    simp only [List.foldl_cons, List.any_cons, ih]
    cases hga : g a <;> simp [hga]

lemma foldl_or {α : Type} (g : α → Bool) :
    ∀ (l : List α) (b : Bool), (l.foldl (fun acc x => acc || g x) b) = (b || l.any g) := by
  intro l
  induction l with
  | nil => intro b; simp
  | cons a t ih =>
    intro b
    simp only [List.foldl_cons, List.any_cons, ih]
    cases hga : g a <;> cases b <;> simp [hga]

lemma beq_swap (x y : String) : (x == y) = (y == x) := by
  by_cases h : x = y
  · simp [h]
  · simp [h, Ne.symm h]

lemma zip_all_swap (f : String → String → Bool) (hf : ∀ x y, f x y = f y x) :
    ∀ (la lb : List String),
      ((la.zip lb).all fun p => f p.1 p.2) = ((lb.zip la).all fun p => f p.1 p.2) := by
  intro la
  induction la with
  | nil => intro lb; cases lb <;> rfl
  | cons x xs ih =>
    intro lb
    cases lb with
    | nil => rfl
    | cons y ys => simp only [List.zip_cons_cons, List.all_cons, hf x y, ih ys]

/-- C10: `compare_command_outputs` is symmetric — the line-count test is
symmetric and a volatile fragment on either side suffices to ignore a
differing line pair, so swapping the two outputs does not change the
verdict. -/
theorem claim_C10_compare_symm (a b : String) :
    compare_command_outputs a b = compare_command_outputs b a := by
  unfold compare_command_outputs
  by_cases h : (split_lines a).length = (split_lines b).length
  · rw [if_neg (not_ne_iff.mpr h), if_neg (not_ne_iff.mpr h.symm)]
    refine zip_all_swap
      (fun x y => x == y || exclusions.any fun excl => str_find x excl || str_find y excl)
      (fun x y => ?_) _ _
    show (x == y || exclusions.any fun excl => str_find x excl || str_find y excl)
      = (y == x || exclusions.any fun excl => str_find y excl || str_find x excl)
    rw [beq_swap]
    exact congrArg (fun z => (y == x) || z) (any_congr_mem _ _ _ (fun e _ => Bool.or_comm _ _))
  · rw [if_pos h, if_pos (fun hh => h hh.symm)]

/-- C1: in a backup job (not a test run), for a successfully retrieved
snapshot a document is written to the backup table iff the change detector
reported a change or the operator's `forceBackup` flag is set, and a
document is written to the info table unconditionally. -/
theorem claim_C1_backup_iff_change_or_force (device_data : DeviceData) (timestamp : Int)
    (previous : Option DeviceData) (force_backup : Bool) :
    ((cli_process_writes device_data timestamp previous force_backup false).any
        (fun w => w.1 == DBT_BACKUP))
      = (detect_config_change device_data previous || force_backup) ∧
    ((cli_process_writes device_data timestamp previous force_backup false).any
        (fun w => w.1 == DBT_INFO)) = true := by
  constructor <;>
    cases h : detect_config_change device_data previous || force_backup <;>
      simp [cli_process_writes, save_device_data, h, DBT_BACKUP, DBT_INFO]

/-- C7: in password authentication, a CLI prompt after the first password
opens the session with no sleep; a re-prompt after the first password
sleeps 5 seconds and retries exactly once, and a CLI prompt on the retry
opens the session; a second consecutive re-prompt raises a hard
authentication failure. -/
theorem claim_C7_password_retry (expects : Nat → PwExpect) :
    (expects 0 = .cliPrompt → open_cli_password expects = ⟨1, [], .opened⟩) ∧
    (expects 0 = .pwPrompt → expects 1 = .cliPrompt →
      open_cli_password expects = ⟨2, [5], .opened⟩) ∧
    (expects 0 = .pwPrompt → expects 1 = .pwPrompt →
      open_cli_password expects = ⟨2, [5], .authFailed⟩) := by
  refine ⟨fun h0 => ?_, fun h0 h1 => ?_, fun h0 h1 => ?_⟩
  · simp [open_cli_password, password_auth_loop, h0]
  · simp [open_cli_password, password_auth_loop, h0, h1]
  · simp [open_cli_password, password_auth_loop, h0, h1]

/-- C7 witness: with a re-prompt after the first password and a CLI prompt
after the second, the session opens after exactly one 5-second sleep. -/
theorem claim_C7_witness :
    open_cli_password Samples.c7_expects = ⟨2, [5], .opened⟩ :=
  (claim_C7_password_retry Samples.c7_expects).2.1 rfl rfl

/-- C8 counterexample: when the inventory file is missing or unreadable,
`read_info_list_file` returns `[]` and `main` runs a bare `sys.exit()`,
which terminates the process with status 0 — not the non-zero exit the
claim asserts for this programmatic error. -/
theorem claim_C8_counterexample :
    main_exit_code .ioError [] [] none = 0 := rfl

/-- C8 amended: the program exits 0 whenever no exception escapes `main` —
on completion regardless of per-device failures, and also on an empty or
unreadable inventory or an empty device selection (bare `sys.exit()`) —
and exits 1 exactly when a `CustomException`, a `KeyboardInterrupt`, or
any other uncaught exception ends the run. -/
theorem claim_C8_exit_codes :
    (∀ (read : ReadListResult) (requested failed : List String),
      main_exit_code read requested failed none = 0) ∧
    (∀ (read : ReadListResult) (requested failed : List String) (fault : MainFault),
      main_exit_code read requested failed (some fault) = 1) := by
  constructor
  · intro read requested failed
    simp [main_exit_code, sys_exit_code]
  · intro read requested failed fault
    cases fault <;> rfl

end Proofs

namespace ProofsB

open Netcat NetcatBackup NetcatDynamoDB NetcatCli

/-- C5: the successful and failed device-name lists partition the requested
device-name list: every requested device name is in exactly one of the two
lists, their union is the requested set, their intersection is empty. -/
theorem claim_C5_partition (device_info_list : List DeviceInfo)
    (requested : List String) (ok : String → Bool) (d : String) :
    (d ∈ requested ↔
      d ∈ successful_device_name_list device_info_list requested ok ∨
      d ∈ failed_device_name_list requested
            (successful_device_name_list device_info_list requested ok)) ∧
    ¬(d ∈ successful_device_name_list device_info_list requested ok ∧
      d ∈ failed_device_name_list requested
            (successful_device_name_list device_info_list requested ok)) := by
  set succ := successful_device_name_list device_info_list requested ok with hsucc
  have hsub : ∀ x, x ∈ succ → x ∈ requested := by
    intro x hx
    rw [hsucc] at hx
    unfold successful_device_name_list at hx
    rw [List.mem_mergeSort] at hx
    rcases List.mem_flatMap.mp hx with ⟨di, hdi, hxdi⟩
    rcases List.mem_filter.mp hdi with ⟨_, hcont⟩
    by_cases hok : ok di.device_name
    · rw [if_pos hok] at hxdi
      simp only [List.mem_singleton] at hxdi
      subst hxdi
      simpa [List.contains] using hcont
    · rw [if_neg hok] at hxdi
      simp at hxdi
  have hfail : ∀ x, x ∈ failed_device_name_list requested succ ↔ (x ∈ requested ∧ x ∉ succ) := by
    intro x
    unfold failed_device_name_list
    rw [List.mem_mergeSort, List.mem_dedup, List.mem_filter]
    simp [List.contains]
  constructor
  · constructor
    · intro hr
      by_cases hs : d ∈ succ
      · exact Or.inl hs
      · exact Or.inr ((hfail d).mpr ⟨hr, hs⟩)
    · rintro (hs | hf)
      · exact hsub d hs
      · exact ((hfail d).mp hf).1
  · rintro ⟨hs, hf⟩
    exact ((hfail d).mp hf).2 hs

/-- C5 witness: partition at a concrete two-device run where only `rtr01`
succeeds. -/
theorem claim_C5_witness :
    ("rtr01" ∈ (["asa01", "rtr01"] : List String) ↔
      "rtr01" ∈ successful_device_name_list Samples.c5_inventory ["asa01", "rtr01"] Samples.c5_ok ∨
      "rtr01" ∈ failed_device_name_list ["asa01", "rtr01"]
        (successful_device_name_list Samples.c5_inventory ["asa01", "rtr01"] Samples.c5_ok)) ∧
    ¬("rtr01" ∈ successful_device_name_list Samples.c5_inventory ["asa01", "rtr01"] Samples.c5_ok ∧
      "rtr01" ∈ failed_device_name_list ["asa01", "rtr01"]
        (successful_device_name_list Samples.c5_inventory ["asa01", "rtr01"] Samples.c5_ok)) :=
  claim_C5_partition Samples.c5_inventory ["asa01", "rtr01"] Samples.c5_ok "rtr01"

lemma range_map_shift (g : Nat → ℚ) (i n : Nat) :
    (List.range (n + 1)).map (fun j => g (i + j)) =
      g i :: (List.range n).map (fun j => g (i + 1 + j)) := by
  rw [List.range_succ_eq_map, List.map_cons, List.map_map]
  have hf : ((fun j => g (i + j)) ∘ Nat.succ) = fun j => g (i + 1 + j) := by
    funext j
    show g (i + (j + 1)) = g (i + 1 + j)
    congr 1
    omega
  rw [hf]
  simp

lemma write_loop_all_throttle (outs : Nat → PutAttempt) (draws : Nat → ℚ) :
    ∀ (fuel i : Nat), (∀ j, j < fuel → outs (i + j) = .throttle) →
      write_loop outs draws fuel i =
        ⟨fuel, (List.range fuel).map (fun j => draws (i + j)), .exhausted⟩ := by
  intro fuel
  induction fuel with
  | zero => intro i _; rfl
  | succ n ih =>
    intro i h
    have h0 : outs i = .throttle := by simpa using h 0 (by omega)
    simp only [write_loop, h0]
    rw [ih (i + 1) (fun j hj => by
      rw [show i + 1 + j = i + (j + 1) by omega]
      exact h (j + 1) (by omega))]
    rw [range_map_shift]

lemma write_loop_stop (outs : Nat → PutAttempt) (draws : Nat → ℚ) :
    ∀ (k fuel i : Nat), k < fuel → (∀ j, j < k → outs (i + j) = .throttle) →
      outs (i + k) ≠ .throttle →
      write_loop outs draws fuel i =
        ⟨k + 1, (List.range k).map (fun j => draws (i + j)),
          if outs (i + k) = .ok then .success else .clientError⟩ := by
  intro k
  induction k with
  | zero =>
    intro fuel i hk hpre hstop
    cases fuel with
    | zero => omega
    | succ n =>
      rw [Nat.add_zero] at hstop
      cases houts : outs i with
      | ok => simp [write_loop, houts]
      | throttle => exact absurd houts hstop
      | otherErr => simp [write_loop, houts]
  | succ k ih =>
    intro fuel i hk hpre hstop
    cases fuel with
    | zero => omega
    | succ n =>
      have h0 : outs i = .throttle := by simpa using hpre 0 (by omega)
      simp only [write_loop, h0]
      rw [ih n (i + 1) (by omega)
        (fun j hj => by
          rw [show i + 1 + j = i + (j + 1) by omega]
          exact hpre (j + 1) (by omega))
        (by
          rw [show i + 1 + k = i + (k + 1) by omega]
          exact hstop)]
      rw [range_map_shift]
      rw [show i + 1 + k = i + (k + 1) by omega]

lemma write_loop_sleeps_mem (outs : Nat → PutAttempt) (draws : Nat → ℚ) :
    ∀ (fuel i : Nat) (q : ℚ), q ∈ (write_loop outs draws fuel i).sleeps → ∃ j, q = draws j := by
  intro fuel
  induction fuel with
  | zero =>
    intro i q hq
    simp [write_loop] at hq
  | succ n ih =>
    intro i q hq
    cases houts : outs i <;> simp only [write_loop, houts] at hq
    · simp at hq
    · rcases List.mem_cons.mp hq with h | h
      · exact ⟨i, h⟩
      · exact ih (i + 1) q h
    · simp at hq

/-- C6: the storage write retries only on throttling errors, sleeping one
uniform draw from the interval 0.1 to 10.0 seconds per throttled attempt,
for at most 15 attempts in total before failing; on any other error it
fails immediately with no further attempt; in particular three throttled
attempts followed by a success give four attempts and three sleeps with no
error escalating. -/
theorem claim_C6_write_retry (outs : Nat → PutAttempt) (draws : Nat → ℚ)
    (hdraws : ∀ i, 1/10 ≤ draws i ∧ draws i ≤ 10) :
    (∀ k, k < 15 → (∀ j, j < k → outs j = .throttle) → outs k = .ok →
      write outs draws = ⟨k + 1, (List.range k).map draws, .success⟩) ∧
    (∀ k, k < 15 → (∀ j, j < k → outs j = .throttle) → outs k = .otherErr →
      write outs draws = ⟨k + 1, (List.range k).map draws, .clientError⟩) ∧
    ((∀ j, j < 15 → outs j = .throttle) →
      write outs draws = ⟨15, (List.range 15).map draws, .exhausted⟩) ∧
    (∀ q, q ∈ (write outs draws).sleeps → 1/10 ≤ q ∧ q ≤ 10) := by
  refine ⟨?_, ?_, ?_, ?_⟩
  · intro k hk hpre hok
    unfold write
    rw [write_loop_stop outs draws k 15 0 hk
      (fun j hj => by rw [Nat.zero_add]; exact hpre j hj)
      (by rw [Nat.zero_add, hok]; decide)]
    simp [Nat.zero_add, hok]
  · intro k hk hpre hother
    unfold write
    rw [write_loop_stop outs draws k 15 0 hk
      (fun j hj => by rw [Nat.zero_add]; exact hpre j hj)
      (by rw [Nat.zero_add, hother]; decide)]
    simp [Nat.zero_add, hother]
  · intro h
    unfold write
    rw [write_loop_all_throttle outs draws 15 0
      (fun j hj => by rw [Nat.zero_add]; exact h j hj)]
    simp [Nat.zero_add]
  · intro q hq
    rcases write_loop_sleeps_mem outs draws 15 0 q hq with ⟨j, rfl⟩
    exact hdraws j

/-- C6 witness: three throttling errors then a success — four `put_item`
attempts, three sleeps, normal completion. -/
theorem claim_C6_witness :
    write Samples.c6_outs Samples.c6_draws = ⟨4, [1, 1, 1], .success⟩ := by
  have h := (claim_C6_write_retry Samples.c6_outs Samples.c6_draws
      (fun i => ⟨by norm_num [Samples.c6_draws], by norm_num [Samples.c6_draws]⟩)).1 3 (by omega)
      (fun j hj => by unfold Samples.c6_outs; rw [if_pos hj])
      (by unfold Samples.c6_outs; rfl)
  exact h.trans (by decide)

/-- C9 counterexample: a snapshot whose only format is named `status`
(neither a `backup*` nor an `info*` name).  The single write of
`save_device_data` goes to the info table with an **empty** format mapping,
while the claim demands the info document to contain every non-`backup`
format — here the nonempty `status` entry. -/
theorem claim_C9_counterexample :
    save_device_data Samples.c9_snapshot 1580000000 false false =
      [(DBT_INFO,
        { snapshot_timestamp := 1580000000
          device_name := "rtr01"
          device_type := "cisco_router"
          output_formats := [] })] ∧
    Samples.c9_snapshot.output_formats.filter (fun fd => !(starts_with fd.1 "backup")) ≠ [] := by
  constructor
  · decide
  · decide

/-- C9 amended: the info-table document carries exactly the formats whose
name starts with `info`, the backup-table document exactly those starting
with `backup` (the filter is on `table_name[7:]`); `device_name` and
`device_type` are carried over, and `snapshot_timestamp` is set to the
job-driver timestamp argument. -/
theorem claim_C9_projection (device_data : DeviceData) (timestamp : Int)
    (config_change force_backup : Bool) :
    (∀ doc, (DBT_INFO, doc) ∈ save_device_data device_data timestamp config_change force_backup →
      doc.output_formats = device_data.output_formats.filter (fun fd => starts_with fd.1 "info") ∧
      doc.device_name = device_data.device_name ∧
      doc.device_type = device_data.device_type ∧
      doc.snapshot_timestamp = timestamp) ∧
    (∀ doc, (DBT_BACKUP, doc) ∈ save_device_data device_data timestamp config_change force_backup →
      doc.output_formats = device_data.output_formats.filter (fun fd => starts_with fd.1 "backup") ∧
      doc.device_name = device_data.device_name ∧
      doc.device_type = device_data.device_type ∧
      doc.snapshot_timestamp = timestamp) := by
  have hinfo : drop7 DBT_INFO = "info" := by decide
  have hbackup : drop7 DBT_BACKUP = "backup" := by decide
  constructor
  · intro doc hmem
    unfold save_device_data at hmem
    rcases List.mem_append.mp hmem with hl | hr
    · by_cases hcf : config_change || force_backup
      · rw [if_pos hcf] at hl
        simp only [List.mem_singleton, Prod.mk.injEq] at hl
        exact absurd hl.1 (by decide)
      · rw [if_neg hcf] at hl
        simp at hl
    · simp only [List.mem_singleton, Prod.mk.injEq] at hr
      rw [hr.2]
      unfold save_device_document
      rw [hinfo]
      exact ⟨rfl, rfl, rfl, rfl⟩
  · intro doc hmem
    unfold save_device_data at hmem
    rcases List.mem_append.mp hmem with hl | hr
    · by_cases hcf : config_change || force_backup
      · rw [if_pos hcf] at hl
        simp only [List.mem_singleton, Prod.mk.injEq] at hl
        rw [hl.2]
        unfold save_device_document
        rw [hbackup]
        exact ⟨rfl, rfl, rfl, rfl⟩
      · rw [if_neg hcf] at hl
        simp at hl
    · simp only [List.mem_singleton, Prod.mk.injEq] at hr
      exact absurd hr.1 (by decide)

/-- C9 witness: the info-table projection evaluated on the `status`-format
snapshot. -/
theorem claim_C9_projection_witness :
    (save_device_document Samples.c9_snapshot 1580000000 DBT_INFO).output_formats =
      Samples.c9_snapshot.output_formats.filter (fun fd => starts_with fd.1 "info") ∧
    (save_device_document Samples.c9_snapshot 1580000000 DBT_INFO).device_name =
      Samples.c9_snapshot.device_name ∧
    (save_device_document Samples.c9_snapshot 1580000000 DBT_INFO).device_type =
      Samples.c9_snapshot.device_type ∧
    (save_device_document Samples.c9_snapshot 1580000000 DBT_INFO).snapshot_timestamp =
      1580000000 :=
  (claim_C9_projection Samples.c9_snapshot 1580000000 true false).1
    (save_device_document Samples.c9_snapshot 1580000000 DBT_INFO)
    (by decide)

end ProofsB


namespace ProofsC

open Netcat

lemma char_toNat_lt (c : Char) : c.toNat < 1114112 := by
  have h := c.valid
  have he : c.toNat = c.val.toNat := rfl
  rcases h with h | h <;> omega

lemma st_lead_ascii (b : Nat) (bs : List Nat) (h : b < 128) :
    utf8_decode_st none (b :: bs) =
      (utf8_decode_st none bs).map (fun cs => Char.ofNat b :: cs) := by
  simp only [utf8_decode_st]
  rw [if_pos h]

lemma st_lead_two (b : Nat) (bs : List Nat) (h : 192 ≤ b ∧ b < 224) :
    utf8_decode_st none (b :: bs) = utf8_decode_st (some (b - 192, 1)) bs := by
  simp only [utf8_decode_st]
  rw [if_neg (by omega), if_neg (by omega), if_pos (by omega)]

lemma st_lead_three (b : Nat) (bs : List Nat) (h : 224 ≤ b ∧ b < 240) :
    utf8_decode_st none (b :: bs) = utf8_decode_st (some (b - 224, 2)) bs := by
  simp only [utf8_decode_st]
  rw [if_neg (by omega), if_neg (by omega), if_neg (by omega), if_pos (by omega)]

lemma st_lead_four (b : Nat) (bs : List Nat) (h : 240 ≤ b) :
    utf8_decode_st none (b :: bs) = utf8_decode_st (some (b - 240, 3)) bs := by
  simp only [utf8_decode_st]
  rw [if_neg (by omega), if_neg (by omega), if_neg (by omega), if_neg (by omega)]

lemma st_cont_last (acc b : Nat) (bs : List Nat) (h : 128 ≤ b ∧ b < 192) :
    utf8_decode_st (some (acc, 1)) (b :: bs) =
      (utf8_decode_st none bs).map (fun cs => Char.ofNat (acc * 64 + (b - 128)) :: cs) := by
  simp only [utf8_decode_st]
  rw [if_pos h, if_true]

lemma st_cont_two (acc b : Nat) (bs : List Nat) (h : 128 ≤ b ∧ b < 192) :
    utf8_decode_st (some (acc, 2)) (b :: bs) =
      utf8_decode_st (some (acc * 64 + (b - 128), 1)) bs := by
  simp only [utf8_decode_st]
  rw [if_pos h, if_neg (by omega)]

lemma st_cont_three (acc b : Nat) (bs : List Nat) (h : 128 ≤ b ∧ b < 192) :
    utf8_decode_st (some (acc, 3)) (b :: bs) =
      utf8_decode_st (some (acc * 64 + (b - 128), 2)) bs := by
  simp only [utf8_decode_st]
  rw [if_pos h, if_neg (by omega)]

lemma utf8_decode_encode_char (c : Char) (rest : List Nat) :
    utf8_decode_st none (utf8_encode_char c ++ rest) =
      (utf8_decode_st none rest).map (fun cs => c :: cs) := by
  have hv := char_toNat_lt c
  by_cases h1 : c.toNat < 128
  · rw [show utf8_encode_char c = [c.toNat] from by
      unfold utf8_encode_char; rw [if_pos h1]]
    simp only [List.cons_append, List.nil_append]
    rw [st_lead_ascii _ _ h1, Char.ofNat_toNat]
  · by_cases h2 : c.toNat < 2048
    · rw [show utf8_encode_char c = [192 + c.toNat / 64, 128 + c.toNat % 64] from by
        unfold utf8_encode_char; rw [if_neg h1, if_pos h2]]
      simp only [List.cons_append, List.nil_append]
      rw [st_lead_two _ _ (by omega), st_cont_last _ _ _ (by omega)]
      rw [show (192 + c.toNat / 64 - 192) * 64 + (128 + c.toNat % 64 - 128) = c.toNat by omega,
        Char.ofNat_toNat]
    · by_cases h3 : c.toNat < 65536
      · rw [show utf8_encode_char c =
            [224 + c.toNat / 4096, 128 + c.toNat / 64 % 64, 128 + c.toNat % 64] from by
          unfold utf8_encode_char; rw [if_neg h1, if_neg h2, if_pos h3]]
        simp only [List.cons_append, List.nil_append]
        rw [st_lead_three _ _ (by omega), st_cont_two _ _ _ (by omega),
          st_cont_last _ _ _ (by omega)]
        rw [show ((224 + c.toNat / 4096 - 224) * 64 + (128 + c.toNat / 64 % 64 - 128)) * 64 +
            (128 + c.toNat % 64 - 128) = c.toNat by omega, Char.ofNat_toNat]
      · rw [show utf8_encode_char c =
            [240 + c.toNat / 262144, 128 + c.toNat / 4096 % 64, 128 + c.toNat / 64 % 64,
              128 + c.toNat % 64] from by
          unfold utf8_encode_char; rw [if_neg h1, if_neg h2, if_neg h3]]
        simp only [List.cons_append, List.nil_append]
        rw [st_lead_four _ _ (by omega), st_cont_three _ _ _ (by omega),
          st_cont_two _ _ _ (by omega), st_cont_last _ _ _ (by omega)]
        rw [show (((240 + c.toNat / 262144 - 240) * 64 + (128 + c.toNat / 4096 % 64 - 128)) * 64 +
            (128 + c.toNat / 64 % 64 - 128)) * 64 + (128 + c.toNat % 64 - 128) = c.toNat by
          omega, Char.ofNat_toNat]

lemma utf8_encode_char_lt (c : Char) : ∀ b ∈ utf8_encode_char c, b < 256 := by
  have hv := char_toNat_lt c
  simp only [utf8_encode_char]
  split_ifs <;> simp <;> omega

lemma utf8_decode_encode (l : List Char) : utf8_decode (utf8_encode l) = some l := by
  induction l with
  | nil => rfl
  | cons c cs ih =>
    show utf8_decode_st none (utf8_encode_char c ++ utf8_encode cs) = some (c :: cs)
    rw [utf8_decode_encode_char]
    show (utf8_decode (utf8_encode cs)).map (fun cs => c :: cs) = some (c :: cs)
    rw [ih]
    rfl

lemma hex_val_hex_digit : ∀ n, n < 16 → hex_val (hex_digit_char n) = some n := by decide

lemma untr_tr_hex_digit :
    ∀ n, n < 16 → untranslate_digit (translate_digit (hex_digit_char n)) = hex_digit_char n := by
  decide

lemma tr_hex_digit_alpha :
    ∀ n, n < 16 → 97 ≤ (translate_digit (hex_digit_char n)).toNat ∧
      (translate_digit (hex_digit_char n)).toNat ≤ 112 := by
  decide

lemma unhexlify_round : ∀ (bs : List Nat), (∀ b ∈ bs, b < 256) →
    unhexlify (((hexlify bs).map translate_digit).map untranslate_digit) = some bs := by
  intro bs
  induction bs with
  | nil => intro _; rfl
  | cons b tl ih =>
    intro h
    have hb : b < 256 := h b (by simp)
    have hhi : b / 16 < 16 := by omega
    have hlo : b % 16 < 16 := by omega
    show unhexlify (untranslate_digit (translate_digit (hex_digit_char (b / 16))) ::
        untranslate_digit (translate_digit (hex_digit_char (b % 16))) ::
        ((hexlify tl).map translate_digit).map untranslate_digit) = some (b :: tl)
    rw [untr_tr_hex_digit _ hhi, untr_tr_hex_digit _ hlo]
    simp only [unhexlify, hex_val_hex_digit _ hhi, hex_val_hex_digit _ hlo]
    rw [ih (fun y hy => h y (by simp [hy]))]
    rw [show 16 * (b / 16) + b % 16 = b by omega]
    rfl

lemma decode_encode_command (s : String) : decode_command (encode_command s) = some s := by
  unfold encode_command decode_command
  have hbound : ∀ b ∈ utf8_encode s.data, b < 256 := by
    intro b hb
    rcases List.mem_flatMap.mp hb with ⟨c, _, hbc⟩
    exact utf8_encode_char_lt c b hbc
  rw [show (String.mk ((hexlify (utf8_encode s.data)).map translate_digit)).data
      = (hexlify (utf8_encode s.data)).map translate_digit from rfl]
  rw [unhexlify_round _ hbound]
  show (utf8_decode (utf8_encode s.data)).map String.mk = some s
  rw [utf8_decode_encode]
  show some (String.mk s.data) = some s
  cases s
  rfl

lemma encode_command_alpha (s : String) :
    ((encode_command s).data.all (fun c => 97 ≤ c.toNat && c.toNat ≤ 112)) = true := by
  rw [List.all_eq_true]
  intro c hc
  rw [show (encode_command s).data = (hexlify (utf8_encode s.data)).map translate_digit
    from rfl] at hc
  rcases List.mem_map.mp hc with ⟨d, hd, rfl⟩
  rcases List.mem_flatMap.mp hd with ⟨b, hbmem, hdb⟩
  have hb : b < 256 := by
    rcases List.mem_flatMap.mp hbmem with ⟨ch, _, hbch⟩
    exact utf8_encode_char_lt ch b hbch
  rcases List.mem_cons.mp hdb with rfl | hdb2
  · have ha := tr_hex_digit_alpha (b / 16) (by omega)
    simp [ha.1, ha.2]
  · rcases List.mem_singleton.mp hdb2 with rfl
    have ha := tr_hex_digit_alpha (b % 16) (by omega)
    simp [ha.1, ha.2]

/-- C4: for every string `s`, `decode_command (encode_command s)`
reconstructs `s` exactly, and `encode_command s` consists only of the
characters `a`..`p` (hex digits `a`-`f` plus the digit substitutes
`g`-`p`), so the encoded key contains no digits or punctuation. -/
theorem claim_C4_command_codec (s : String) :
    decode_command (encode_command s) = some s ∧
    ((encode_command s).data.all (fun c => 97 ≤ c.toNat && c.toNat ≤ 112)) = true :=
  ⟨decode_encode_command s, encode_command_alpha s⟩

lemma mapM_map_some {α β : Type} (f : β → Option α) (g : α → β) :
    ∀ (l : List α), (∀ x ∈ l, f (g x) = some x) → (l.map g).mapM f = some l := by
  intro l
  induction l with
  | nil => intro _; rfl
  | cons x tl ih =>
    intro h
    rw [List.map_cons, List.mapM_cons, h x (by simp), ih (fun y hy => h y (by simp [hy]))]
    rfl

/-- C3: for every well-formed `DeviceSnapshot` and every lossless
byte-level codec (the bz2-plus-base85 pipeline is modelled by `comp` and
`decomp` with `decomp (comp t) = some t`), `decompress_device_data`
inverts `compress_device_data` exactly — structurally and byte-exactly on
every command output string. -/
theorem claim_C3_compress_roundtrip (comp : String → String) (decomp : String → Option String)
    (hcodec : ∀ t, decomp (comp t) = some t) (device_data : DeviceData) :
    decompress_device_data decomp (compress_device_data comp device_data) = some device_data := by
  unfold compress_device_data decompress_device_data
  rw [mapM_map_some _ _ device_data.output_formats (fun fd _ => by
    show ((fd.2.map (fun cd => (encode_command cd.1, comp cd.2))).mapM
        (fun cd => (decode_command cd.1).bind fun name =>
          (decomp cd.2).bind fun data => some (name, data))).bind
        (fun cmds => some (fd.1, cmds)) = some fd
    rw [mapM_map_some _ _ fd.2 (fun cd _ => by
      show (decode_command (encode_command cd.1)).bind
          (fun name => (decomp (comp cd.2)).bind fun data => some (name, data)) = some cd
      rw [decode_encode_command, hcodec]
      rfl)]
    rfl)]
  rfl

/-- C3 witness: the structural round trip at a concrete snapshot, with the
identity codec standing in for the bz2-plus-base85 pipeline. -/
theorem claim_C3_witness :
    decompress_device_data (fun t => some t)
      (compress_device_data (fun t => t) Samples.sample_snapshot) =
      some Samples.sample_snapshot :=
  claim_C3_compress_roundtrip (fun t => t) (fun t => some t) (fun _ => rfl)
    Samples.sample_snapshot

end ProofsC

namespace ProofsD

open Netcat NetcatBackup SpecSide

lemma all_congr_mem {α : Type} (l : List α) (f g : α → Bool) (h : ∀ x ∈ l, f x = g x) :
    l.all f = l.all g := by
  induction l with
  | nil => rfl
  | cons a t ih =>
    simp only [List.all_cons, h a (by simp), ih (fun x hx => h x (by simp [hx]))]

lemma compare_eq_equiv (a b : String) :
    compare_command_outputs a b = outputs_equivalent a b := by
  unfold compare_command_outputs outputs_equivalent line_is_volatile
  by_cases h : (split_lines a).length = (split_lines b).length
  · rw [if_neg (not_ne_iff.mpr h)]
    rw [show ((split_lines a).length == (split_lines b).length) = true from by simp [h]]
    rw [Bool.true_and]
    refine all_congr_mem _ _ _ (fun p _ => ?_)
    exact congrArg (fun z => (p.1 == p.2) || z) (Proofs.any_or_split exclusions _ _)
  · rw [if_pos h]
    rw [show ((split_lines a).length == (split_lines b).length) = false from by simp [h]]
    rw [Bool.false_and]

/-- C2 counterexample: the current snapshot has one `backup*` format whose
single command output is the empty string, and the stored previous backup
exists but has an empty `output_formats` mapping.  A previous backup
exists and every current output is equivalent to its previous default
(`""` against `""`), so the claim's right-hand side is false — yet
`detect_config_change` returns `true`, because it tests emptiness of the
previous `output_formats` mapping, not absence of a previous backup. -/
theorem claim_C2_counterexample :
    detect_config_change Samples.c2_current (some Samples.c2_previous) = true ∧
    claimed_config_change Samples.c2_current (some Samples.c2_previous) = false := by
  constructor
  · decide
  · decide

/-- C2 amended: `detect_config_change` reports a change iff the previous
backup is missing **or its `output_formats` mapping is empty**, or for
some format whose name begins with `backup` and some command in the
current snapshot, the current output and the previous output (the empty
string when the command is absent from the previous backup) are not
equivalent — equivalence being: same number of lines and every pair of
corresponding unequal lines has a volatile fragment (`!Time:`,
`no ip domain-lookup`, `state up`, `state down`) on at least one side. -/
theorem claim_C2_change_detector (current : DeviceData) (previous : Option DeviceData) :
    detect_config_change current previous = claimed_config_change_amended current previous := by
  cases previous with
  | none => rfl
  | some p =>
    simp only [detect_config_change, claimed_config_change_amended]
    rw [show ((some p).map (fun q => q.output_formats)).getD [] = p.output_formats from rfl]
    cases hemp : p.output_formats.isEmpty with
    | true => simp [hemp]
    | false =>
      rw [if_neg (by simp [hemp])]
      simp only [Proofs.foldl_if_or, Proofs.foldl_or, Bool.false_or]
      rw [List.any_filter]
      refine Proofs.any_congr_mem _ _ _ (fun fd _ => ?_)
      refine congrArg (fun z => starts_with fd.1 "backup" && z) ?_
      refine Proofs.any_congr_mem _ _ _ (fun cd _ => ?_)
      rw [compare_eq_equiv]

end ProofsD
